import Mathlib

/-!
Shallow embedding of the uv-robot backend (src/backend/server.py):
the robot state machine, the command handler `send_robot_command`,
one iteration of the `robot_simulation` tick loop, and the
`ConnectionManager.broadcast` fan-out.  Timestamps are naturals,
statuses keep the source's string values, the obstacle roll and a
database-insert failure are explicit boolean inputs.
-/

namespace UvRobot

/-- The mutable robot state (`RobotState.__init__` in server.py).
`status` keeps the source's string values: "idle", "mopping",
"spraying", "uv_disinfecting", "paused". -/
structure RobotState where
  status : String
  progress : Nat
  is_cleaning : Bool
  obstacle_detected : Bool
  start_time : Option Nat
  current_mode : Option String
  pause_reason : Option String
  deriving DecidableEq, Repr

/-- The initial state built by `RobotState.__init__`. -/
def initState : RobotState :=
  { status := "idle", progress := 0, is_cleaning := false,
    obstacle_detected := false, start_time := none,
    current_mode := none, pause_reason := none }

/-- A record of the `cleaning_logs` collection (`CleaningLog` model);
the random uuid id is omitted. -/
structure CleaningLog where
  start_time : Nat
  end_time : Nat
  duration : Nat
  mode : Option String
  status : String
  progress : Nat
  deriving DecidableEq, Repr

/-- One broadcast message of `manager.broadcast`, with the state
snapshot it carries. -/
inductive Event where
  | alert (message : String) (state : RobotState)
  | info (message : String) (state : RobotState)
  | status_update (state : RobotState)
  | cleaning_complete (message : String) (state : RobotState) (duration : Nat)
  deriving DecidableEq, Repr

/-- The body of a POST /api/robot/command request (`RobotCommand` model);
`mode` defaults to "full_clean". -/
structure RobotCommand where
  command : String
  mode : String := "full_clean"
  deriving DecidableEq, Repr

/-- The JSON value returned by `send_robot_command`; the rejection
branches carry no `robot_state` key. -/
structure CmdResult where
  success : Bool
  message : String
  robot_state : Option RobotState
  deriving DecidableEq, Repr

/-- The full effect of one `send_robot_command` call: the returned value
(`none` when the function falls through every branch and returns null,
or when an exception escapes), the state after the call, the broadcasts,
the log inserts, and whether an exception propagated out of the handler. -/
structure CmdEffect where
  result : Option CmdResult
  state : RobotState
  events : List Event
  records : List CleaningLog
  raised : Bool
  deriving DecidableEq, Repr

/-- The effect of one iteration of the `robot_simulation` loop body:
the state afterwards, the broadcasts, the log inserts, and whether an
exception escaped the loop (killing the simulation task). -/
structure TickEffect where
  state : RobotState
  events : List Event
  records : List CleaningLog
  crashed : Bool
  deriving DecidableEq, Repr

/-- The status derivation of the simulation loop (server.py lines
124-131): thresholds on `progress`. -/
def derivedStatus (p : Nat) : String :=
  if p < 30 then "mopping"
  else if p < 60 then "spraying"
  else if p < 90 then "uv_disinfecting"
  else "mopping"

/-- One iteration of the `robot_simulation` while-loop (server.py lines
117-185).  `obstacle` is the outcome of the `random.random() < 0.1`
roll; `logFail` says whether `db.cleaning_logs.insert_one` raises; `now`
is `datetime.utcnow()` of this iteration.  The obstacle branch sets and,
after the in-tick grace sleep, clears `obstacle_detected`/`pause_reason`
within the same iteration; the completion branch computes
`duration = now - start_time` and inserts one completed log.  An
insert failure propagates out of the async task: state mutations made
before the insert stand, the completion broadcast never happens, and
the loop terminates (`crashed := true`). -/
def robot_simulation_tick (obstacle logFail : Bool) (now : Nat)
    (s : RobotState) : TickEffect :=
  if s.is_cleaning ∧ s.status ≠ "paused" then
    if s.progress < 100 then
      let s1 : RobotState :=
        { s with progress := s.progress + 2,
                 status := derivedStatus (s.progress + 2) }
      if obstacle ∧ s1.obstacle_detected = false then
        let s2 : RobotState :=
          { s1 with obstacle_detected := true, status := "paused",
                    pause_reason := some "obstacle_detected" }
        let s3 : RobotState :=
          { s2 with obstacle_detected := false, pause_reason := none }
        { state := s3,
          events := [Event.alert "Obstacle detected! Robot paused for safety." s2,
                     Event.info "Path clear. Resuming cleaning..." s3,
                     Event.status_update s3],
          records := [], crashed := false }
      else
        { state := s1, events := [Event.status_update s1],
          records := [], crashed := false }
    else
      let s1 : RobotState :=
        { s with is_cleaning := false, status := "idle", progress := 100 }
      let duration := now - s1.start_time.getD 0
      if logFail then
        { state := s1, events := [], records := [], crashed := true }
      else
        { state := s1,
          events := [Event.cleaning_complete
                       "Cleaning cycle completed successfully!" s1 duration],
          records := [{ start_time := s1.start_time.getD 0, end_time := now,
                        duration := duration, mode := s1.current_mode,
                        status := "completed", progress := 100 }],
          crashed := false }
  else
    { state := s, events := [], records := [], crashed := false }

/-- A rejection result of `send_robot_command`: `success=False` with a
message, no state change, no broadcast, no log write, no exception. -/
def rejEffect (s : RobotState) (msg : String) : CmdEffect :=
  { result := some { success := false, message := msg, robot_state := none },
    state := s, events := [], records := [], raised := false }

/-- The POST /api/robot/command handler (server.py lines 215-295).
`now` is `datetime.utcnow()`; `logFail` says whether the
`db.cleaning_logs.insert_one` in the stop branch raises, in which case
the mutations already applied (`is_cleaning=False`, `status="idle"`)
stand but the progress/start_time/current_mode resets after the insert
never run and the exception propagates (`raised := true`).  A command
string other than start/stop/pause/resume falls through every branch
and the function returns None. -/
def send_robot_command (c : RobotCommand) (now : Nat) (logFail : Bool)
    (s : RobotState) : CmdEffect :=
  if c.command = "start" then
    if s.is_cleaning = false then
      let s1 : RobotState :=
        { s with is_cleaning := true, status := "mopping", progress := 0,
                 start_time := some now, current_mode := some c.mode }
      { result := some { success := true, message := "Cleaning started",
                         robot_state := some s1 },
        state := s1,
        events := [Event.info
          ("Starting " ++ c.mode.replace "_" " " ++ " cycle...") s1],
        records := [], raised := false }
    else rejEffect s "Robot is already cleaning"
  else if c.command = "stop" then
    if s.is_cleaning then
      let s1 : RobotState := { s with is_cleaning := false, status := "idle" }
      let duration := now - s1.start_time.getD 0
      let log : CleaningLog :=
        { start_time := s1.start_time.getD 0, end_time := now,
          duration := duration, mode := s1.current_mode,
          status := "interrupted", progress := s1.progress }
      if logFail then
        { result := none, state := s1, events := [], records := [],
          raised := true }
      else
        let s2 : RobotState :=
          { s1 with progress := 0, start_time := none, current_mode := none }
        { result := some { success := true, message := "Cleaning stopped",
                           robot_state := some s2 },
          state := s2,
          events := [Event.info "Cleaning stopped by user" s2],
          records := [log], raised := false }
    else rejEffect s "Robot is not cleaning"
  else if c.command = "pause" then
    if s.is_cleaning ∧ s.status ≠ "paused" then
      let s1 : RobotState :=
        { s with status := "paused", pause_reason := some "user_request" }
      { result := some { success := true, message := "Cleaning paused",
                         robot_state := some s1 },
        state := s1,
        events := [Event.info "Cleaning paused by user" s1],
        records := [], raised := false }
    else rejEffect s "Cannot pause robot"
  else if c.command = "resume" then
    if s.is_cleaning ∧ s.status = "paused" then
      let s1 : RobotState :=
        { s with status := "mopping", pause_reason := none }
      { result := some { success := true, message := "Cleaning resumed",
                         robot_state := some s1 },
        state := s1,
        events := [Event.info "Cleaning resumed" s1],
        records := [], raised := false }
    else rejEffect s "Cannot resume robot"
  else
    { result := none, state := s, events := [], records := [],
      raised := false }

/-- One interaction with the system: a command request or one tick of
the simulation loop (with the obstacle-roll outcome), with the
insert never failing. -/
inductive Act where
  | cmd (command : String) (mode : String) (now : Nat)
  | tick (obstacle : Bool) (now : Nat)
  deriving DecidableEq, Repr

/-- State transition of one interaction. -/
def applyAct (a : Act) (s : RobotState) : RobotState :=
  match a with
  | .cmd c m now => (send_robot_command { command := c, mode := m } now false s).state
  | .tick ob now => (robot_simulation_tick ob false now s).state

/-- State after a sequence of interactions. -/
def run (acts : List Act) (s : RobotState) : RobotState :=
  match acts with
  | [] => s
  | a :: rest => run rest (applyAct a s)

/-- The state after a successful Stop: reset to Idle. -/
def stopResetState (s : RobotState) : RobotState :=
  { s with is_cleaning := false, status := "idle", progress := 0,
           start_time := none, current_mode := none }

/-- The state after the completion branch of the tick: `is_cleaning`,
`status`, `progress` are mutated, nothing else. -/
def completedState (s : RobotState) : RobotState :=
  { s with is_cleaning := false, status := "idle", progress := 100 }

/-- A state one tick before completion, as reached from the initial
state by a Start and fifty obstacle-free ticks. -/
def preCompletionState : RobotState :=
  { status := "mopping", progress := 100, is_cleaning := true,
    obstacle_detected := false, start_time := some 0,
    current_mode := some "full_clean", pause_reason := none }

/-- A state one tick before completion, used to show a failing log
insert kills the simulation loop. -/
def preCompletionState8 : RobotState :=
  { status := "mopping", progress := 100, is_cleaning := true,
    obstacle_detected := false, start_time := some 0,
    current_mode := some "full_clean", pause_reason := none }

/-- A mid-grace obstacle pause: `obstacle_detected` still true, as the
running system exposes between the pause alert and the auto-clear. -/
def obstaclePausedState : RobotState :=
  { status := "paused", progress := 40, is_cleaning := true,
    obstacle_detected := true, start_time := some 0,
    current_mode := some "full_clean",
    pause_reason := some "obstacle_detected" }

/-- A user-paused mid-session state. -/
def userPausedState : RobotState :=
  { status := "paused", progress := 40, is_cleaning := true,
    obstacle_detected := false, start_time := some 0,
    current_mode := some "full_clean",
    pause_reason := some "user_request" }

/-- A mid-session active state. -/
def cleaningDemoState : RobotState :=
  { status := "mopping", progress := 10, is_cleaning := true,
    obstacle_detected := false, start_time := some 0,
    current_mode := some "full_clean", pause_reason := none }

/-- An active state at progress 100, about to complete. -/
def cleaningDoneState : RobotState :=
  { status := "mopping", progress := 100, is_cleaning := true,
    obstacle_detected := false, start_time := some 0,
    current_mode := some "full_clean", pause_reason := none }

/-- A mid-session spraying state used to exercise Stop. -/
def stopDemoState : RobotState :=
  { status := "spraying", progress := 40, is_cleaning := true,
    obstacle_detected := false, start_time := some 3,
    current_mode := some "full_clean", pause_reason := none }

/-- The §8 pause invariant: `pause_reason` is non-null iff the status
is "paused". -/
def pauseInv (s : RobotState) : Prop :=
  s.pause_reason ≠ none ↔ s.status = "paused"

instance (s : RobotState) : Decidable (pauseInv s) := by
  unfold pauseInv; infer_instance

/-- The two step kinds that break the pause invariant: a tick whose
obstacle roll fires, and a stop command issued while paused. -/
def badStep (s : RobotState) : Act → Bool
  | .cmd c _ _ => c == "stop" && s.status == "paused"
  | .tick ob _ => ob

/-- A trace none of whose steps is bad at the state where it runs. -/
def goodTrace : RobotState → List Act → Bool
  | _, [] => true
  | s, a :: rest => !badStep s a && goodTrace (applyAct a s) rest

/-- Strengthening of the pause invariant closed under good steps. -/
def pauseInvS (s : RobotState) : Prop :=
  pauseInv s ∧ (s.is_cleaning = false → s.status ≠ "paused")

/-- The §3 invariant: `current_mode` and `start_time` are non-null iff
`is_cleaning` is true. -/
def cleaningInv (s : RobotState) : Prop :=
  (s.current_mode ≠ none ↔ s.is_cleaning = true)
  ∧ (s.start_time ≠ none ↔ s.is_cleaning = true)

instance (s : RobotState) : Decidable (cleaningInv s) := by
  unfold cleaningInv; infer_instance

/-- State after N obstacle-free iterations of the simulation loop. -/
def simTicks (n : Nat) (s : RobotState) : RobotState :=
  (fun s => (robot_simulation_tick false false 0 s).state)^[n] s

/-- State right after a fresh Start(mode) issued at time t. -/
def startedState (t : Nat) (mode : String) : RobotState :=
  (send_robot_command { command := "start", mode := mode } t false initState).state

namespace ConnectionManager

/-- `ConnectionManager.disconnect` (server.py lines 90-92): remove the
connection from the active list if present.  Connections are modelled
as Nat handles. -/
def disconnect (conns : List Nat) (w : Nat) : List Nat :=
  if w ∈ conns then conns.erase w else conns

/-- The send loop of `ConnectionManager.broadcast` (lines 100-106):
walk the current connection list in order; a connection whose
`send_text` raises (`fails c = true`) goes to the `disconnected` list,
the rest receive the message.  Returns (delivered, disconnected),
both in list order. -/
def sendLoop (fails : Nat → Bool) : List Nat → List Nat × List Nat
  | [] => ([], [])
  | c :: rest =>
    let r := sendLoop fails rest
    if fails c then (r.1, c :: r.2) else (c :: r.1, r.2)

/-- `ConnectionManager.broadcast` (lines 100-110): send to every
connection, then remove each collected disconnected client.  Returns
the list of connections that received the message and the connection
list afterwards. -/
def broadcast (conns : List Nat) (fails : Nat → Bool) : List Nat × List Nat :=
  ((sendLoop fails conns).1, (sendLoop fails conns).2.foldl disconnect conns)

end ConnectionManager

lemma derivedStatus_ne_paused (p : Nat) : derivedStatus p ≠ "paused" := by
  unfold derivedStatus
  split_ifs <;> decide

lemma pauseInvS_step (s : RobotState) (a : Act) (hI : pauseInvS s)
    (hb : badStep s a = false) : pauseInvS (applyAct a s) := by
  obtain ⟨hiff, hcl⟩ := hI
  cases a with
  | cmd c m now =>
    simp only [badStep, Bool.and_eq_false_iff, beq_eq_false_iff_ne] at hb
    simp only [applyAct, send_robot_command]
    split_ifs <;> simp_all [pauseInvS, pauseInv, rejEffect]
  | tick ob now =>
    simp only [badStep] at hb
    subst hb
    simp only [applyAct, robot_simulation_tick]
    split_ifs with g1 g2 g3 <;>
      simp_all [pauseInvS, pauseInv, derivedStatus_ne_paused]

lemma pauseInvS_run (acts : List Act) (s : RobotState) (hI : pauseInvS s)
    (hg : goodTrace s acts = true) : pauseInvS (run acts s) := by
  induction acts generalizing s with
  | nil => exact hI
  | cons a rest ih =>
    simp only [goodTrace, Bool.and_eq_true, Bool.not_eq_true'] at hg
    exact ih _ (pauseInvS_step s a hI hg.1) hg.2

/-- Claim C1 (amended): along every sequence of commands and ticks
from the initial state in which the obstacle roll never fires and Stop
is never issued while paused, `pause_reason` is non-null iff the
status is "paused".  (As stated over all sequences the claim is
false: see the counterexample.) -/
theorem C1_pause_invariant (acts : List Act)
    (hg : goodTrace initState acts = true) :
    pauseInv (run acts initState) :=
  (pauseInvS_run acts initState (by constructor <;> simp [pauseInv, initState]) hg).1

/-- Witness for C1: a start, an obstacle-free tick, a pause, a resume
and a stop keep the invariant. -/
theorem C1_witness :
    goodTrace initState
      [Act.cmd "start" "full_clean" 0, Act.tick false 1,
       Act.cmd "pause" "full_clean" 2, Act.cmd "resume" "full_clean" 3,
       Act.cmd "stop" "full_clean" 4] = true
    ∧ pauseInv (run
      [Act.cmd "start" "full_clean" 0, Act.tick false 1,
       Act.cmd "pause" "full_clean" 2, Act.cmd "resume" "full_clean" 3,
       Act.cmd "stop" "full_clean" 4] initState) :=
  ⟨by decide, C1_pause_invariant
      [Act.cmd "start" "full_clean" 0, Act.tick false 1,
       Act.cmd "pause" "full_clean" 2, Act.cmd "resume" "full_clean" 3,
       Act.cmd "stop" "full_clean" 4] (by decide)⟩

/-- Counterexample to C1 as stated: after start, pause, stop the state
has `pause_reason = some "user_request"` but status "idle" — the stop
branch never clears `pause_reason`. -/
theorem C1_counterexample :
    ¬ pauseInv (run [Act.cmd "start" "full_clean" 0,
                     Act.cmd "pause" "full_clean" 1,
                     Act.cmd "stop" "full_clean" 2] initState) := by
  decide

/-- Claim C2 (amended): commands (with the log insert succeeding) and
non-completing ticks preserve the invariant that `current_mode` and
`start_time` are non-null iff `is_cleaning`; the tick completion path
breaks it, since it clears `is_cleaning` but neither `start_time` nor
`current_mode`. -/
theorem C2_preservation (s : RobotState) (hI : cleaningInv s) :
    (∀ c now, cleaningInv (send_robot_command c now false s).state)
    ∧ (∀ ob now, s.progress < 100 ∨ s.is_cleaning = false ∨ s.status = "paused" →
        cleaningInv (robot_simulation_tick ob false now s).state)
    ∧ (∀ ob now, s.is_cleaning = true → s.status ≠ "paused" →
        ¬ s.progress < 100 →
        ¬ cleaningInv (robot_simulation_tick ob false now s).state) := by
  obtain ⟨hm, ht⟩ := hI
  refine ⟨fun c now => ?_, fun ob now h => ?_, fun ob now h1 h2 h3 => ?_⟩
  · simp only [send_robot_command]
    split_ifs <;> simp_all [cleaningInv, rejEffect]
  · simp only [robot_simulation_tick]
    split_ifs <;> simp_all [cleaningInv]
  · have hst : s.start_time ≠ none := ht.mpr h1
    simp only [robot_simulation_tick]
    split_ifs <;> simp_all [cleaningInv]

/-- Witness for C2: a pause command and a mid-session tick preserve
the invariant; the completing tick from progress 100 breaks it. -/
theorem C2_witness :
    cleaningInv (send_robot_command { command := "pause" } 3 false cleaningDemoState).state
    ∧ cleaningInv (robot_simulation_tick false false 3 cleaningDemoState).state
    ∧ ¬ cleaningInv (robot_simulation_tick false false 3 cleaningDoneState).state :=
  ⟨(C2_preservation cleaningDemoState (by decide)).1 { command := "pause" } 3,
   (C2_preservation cleaningDemoState (by decide)).2.1 false 3 (Or.inl (by decide)),
   (C2_preservation cleaningDoneState (by decide)).2.2 false 3 rfl (by decide) (by decide)⟩

set_option maxRecDepth 40000 in
/-- Counterexample to C2 as stated: from the initial state, a Start
and fifty ticks satisfy the invariant, and the fifty-first (completing)
tick breaks it. -/
theorem C2_counterexample :
    cleaningInv (run (Act.cmd "start" "full_clean" 0 ::
        List.replicate 50 (Act.tick false 0)) initState)
    ∧ ¬ cleaningInv (applyAct (Act.tick false 0)
        (run (Act.cmd "start" "full_clean" 0 ::
          List.replicate 50 (Act.tick false 0)) initState)) := by
  decide

/-- Claim C3 (amended): on the tick at which progress has reached 100,
exactly one completed log record is written with
`duration = now - start_time`, one completion event is emitted, and
the state gets `is_cleaning := false`, `status := "idle"`,
`progress := 100` — `progress` is not reset to 0 and
`start_time`/`current_mode` are not cleared. -/
theorem C3_completion (s : RobotState) (ob : Bool) (now t : Nat)
    (h1 : s.is_cleaning = true) (h2 : s.status ≠ "paused")
    (h3 : ¬ s.progress < 100) (h4 : s.start_time = some t) :
    robot_simulation_tick ob false now s =
      { state := completedState s,
        events := [Event.cleaning_complete
          "Cleaning cycle completed successfully!" (completedState s) (now - t)],
        records := [{ start_time := t, end_time := now, duration := now - t,
                      mode := s.current_mode, status := "completed",
                      progress := 100 }],
        crashed := false } := by
  simp [robot_simulation_tick, completedState, h1, h2, h3, h4]

/-- Witness for C3: the completing tick at a concrete pre-completion
state. -/
theorem C3_witness :
    robot_simulation_tick false false 20 preCompletionState =
      { state := completedState preCompletionState,
        events := [Event.cleaning_complete
          "Cleaning cycle completed successfully!"
          (completedState preCompletionState) 20],
        records := [{ start_time := 0, end_time := 20, duration := 20,
                      mode := some "full_clean", status := "completed",
                      progress := 100 }],
        crashed := false } := by
  have h := C3_completion preCompletionState false 20 0 rfl (by decide)
    (by decide) rfl
  simpa using h

set_option maxRecDepth 20000 in
/-- Counterexample to C3 as stated: the pre-completion state is reached
from the initial state by a Start and fifty obstacle-free ticks, and
the completing tick leaves progress at 100 with `start_time` and
`current_mode` still set — not the Idle reset configuration. -/
theorem C3_counterexample :
    run (Act.cmd "start" "full_clean" 0 :: List.replicate 50 (Act.tick false 0))
        initState = preCompletionState
    ∧ (robot_simulation_tick false false 20 preCompletionState).state.status = "idle"
    ∧ ¬ ((robot_simulation_tick false false 20 preCompletionState).state.progress = 0
         ∧ (robot_simulation_tick false false 20 preCompletionState).state.start_time = none
         ∧ (robot_simulation_tick false false 20 preCompletionState).state.current_mode = none) := by
  decide

lemma simTicks_closed (t : Nat) (mode : String) (N : Nat) (h : N ≤ 50) :
    simTicks N (startedState t mode) =
      { status := derivedStatus (2 * N), progress := 2 * N,
        is_cleaning := true, obstacle_detected := false,
        start_time := some t, current_mode := some mode,
        pause_reason := none } := by
  induction N with
  | zero =>
    simp [simTicks, startedState, send_robot_command, initState, derivedStatus]
  | succ n ih =>
    have hn : n ≤ 50 := Nat.le_of_succ_le h
    rw [simTicks, Function.iterate_succ_apply', ← simTicks, ih hn]
    have hp : 2 * n < 100 := by omega
    have h2 : 2 * (n + 1) = 2 * n + 2 := by ring
    simp [robot_simulation_tick, derivedStatus_ne_paused, hp, h2]

lemma simTicks_after (t : Nat) (mode : String) (k : Nat) :
    simTicks (51 + k) (startedState t mode) =
      { status := "idle", progress := 100, is_cleaning := false,
        obstacle_detected := false, start_time := some t,
        current_mode := some mode, pause_reason := none } := by
  induction k with
  | zero =>
    rw [show 51 + 0 = 50 + 1 from rfl, simTicks,
        Function.iterate_succ_apply', ← simTicks,
        simTicks_closed t mode 50 (by omega)]
    simp [robot_simulation_tick, derivedStatus]
  | succ k ih =>
    rw [show 51 + (k + 1) = (51 + k) + 1 from by omega, simTicks,
        Function.iterate_succ_apply', ← simTicks, ih]
    simp [robot_simulation_tick]

/-- Claim C4 (amended): from a fresh Start, after N obstacle-free ticks
progress is min(100, 2N) for every N, and status is the threshold
function of 2N for N ≤ 50 (with the stated boundary values); from
N = 51 on the session has completed, so status is "idle" and cleaning
is over (rather than the threshold value "mopping"). -/
theorem C4_progress_status (t : Nat) (mode : String) (N : Nat) :
    (simTicks N (startedState t mode)).progress = min 100 (2 * N)
    ∧ (N ≤ 50 → (simTicks N (startedState t mode)).status = derivedStatus (2 * N)
         ∧ (simTicks N (startedState t mode)).is_cleaning = true)
    ∧ (51 ≤ N → (simTicks N (startedState t mode)).status = "idle"
         ∧ (simTicks N (startedState t mode)).is_cleaning = false)
    ∧ derivedStatus 30 = "spraying" ∧ derivedStatus 58 = "spraying"
    ∧ derivedStatus 60 = "uv_disinfecting" := by
  by_cases h : N ≤ 50
  · rw [simTicks_closed t mode N h]
    refine ⟨by simp; omega, fun _ => ⟨rfl, rfl⟩, fun h51 => absurd h51 (by omega),
      by decide, by decide, by decide⟩
  · obtain ⟨k, rfl⟩ : ∃ k, N = 51 + k := ⟨N - 51, by omega⟩
    rw [simTicks_after t mode k]
    refine ⟨by simp; omega, fun hle => absurd hle (by omega),
      fun _ => ⟨rfl, rfl⟩, by decide, by decide, by decide⟩

/-- Witness for C4: concrete instances at N = 5 and N = 60. -/
theorem C4_witness :
    (simTicks 5 (startedState 0 "full_clean")).progress = min 100 (2 * 5)
    ∧ (simTicks 5 (startedState 0 "full_clean")).status = derivedStatus (2 * 5)
    ∧ (simTicks 60 (startedState 0 "full_clean")).status = "idle" :=
  ⟨(C4_progress_status 0 "full_clean" 5).1,
   ((C4_progress_status 0 "full_clean" 5).2.1 (by decide)).1,
   ((C4_progress_status 0 "full_clean" 60).2.2.1 (by decide)).1⟩

set_option maxRecDepth 40000 in
/-- Counterexample to C4 as stated: at N = 51 the status is "idle",
not the threshold-table value of the current progress. -/
theorem C4_counterexample :
    (simTicks 51 (startedState 0 "full_clean")).status = "idle"
    ∧ derivedStatus (simTicks 51 (startedState 0 "full_clean")).progress
        = "mopping"
    ∧ (simTicks 51 (startedState 0 "full_clean")).status ≠
        derivedStatus (simTicks 51 (startedState 0 "full_clean")).progress := by
  decide

/-- Claim C5: Start while cleaning, Stop while not cleaning, Pause and
Resume with failing preconditions are all rejected with
`success=False`, leave the state unchanged, emit nothing, raise
nothing; and stop/pause/resume never turn `is_cleaning` from false to
true. -/
theorem C5_invalid (s : RobotState) (now : Nat) (mode : String) (lf : Bool) :
    (s.is_cleaning = true →
      send_robot_command { command := "start", mode := mode } now lf s =
        rejEffect s "Robot is already cleaning")
    ∧ (s.is_cleaning = false →
      send_robot_command { command := "stop", mode := mode } now lf s =
        rejEffect s "Robot is not cleaning")
    ∧ (¬ (s.is_cleaning = true ∧ s.status ≠ "paused") →
      send_robot_command { command := "pause", mode := mode } now lf s =
        rejEffect s "Cannot pause robot")
    ∧ (¬ (s.is_cleaning = true ∧ s.status = "paused") →
      send_robot_command { command := "resume", mode := mode } now lf s =
        rejEffect s "Cannot resume robot")
    ∧ (s.is_cleaning = false →
        (send_robot_command { command := "stop", mode := mode } now lf s).state.is_cleaning = false
        ∧ (send_robot_command { command := "pause", mode := mode } now lf s).state.is_cleaning = false
        ∧ (send_robot_command { command := "resume", mode := mode } now lf s).state.is_cleaning = false) := by
  refine ⟨fun h => ?_, fun h => ?_, fun h => ?_, fun h => ?_, fun h => ?_⟩
  · simp [send_robot_command, h]
  · simp [send_robot_command, h]
  · simp only [send_robot_command]
    split_ifs with h1 h2 <;> simp_all
  · simp only [send_robot_command]
    split_ifs with h1 h2 <;> simp_all
  · refine ⟨?_, ?_, ?_⟩ <;> simp only [send_robot_command] <;>
      split_ifs <;> simp_all [rejEffect]

/-- Witness for C5: the four rejections at concrete states. -/
theorem C5_witness :
    send_robot_command { command := "start", mode := "full_clean" } 0 false
        cleaningDemoState = rejEffect cleaningDemoState "Robot is already cleaning"
    ∧ send_robot_command { command := "stop", mode := "full_clean" } 0 false
        initState = rejEffect initState "Robot is not cleaning"
    ∧ send_robot_command { command := "pause", mode := "full_clean" } 0 false
        initState = rejEffect initState "Cannot pause robot"
    ∧ send_robot_command { command := "resume", mode := "full_clean" } 0 false
        initState = rejEffect initState "Cannot resume robot"
    ∧ (send_robot_command { command := "resume", mode := "full_clean" } 0 false
        initState).state.is_cleaning = false :=
  ⟨(C5_invalid cleaningDemoState 0 "full_clean" false).1 rfl,
   (C5_invalid initState 0 "full_clean" false).2.1 rfl,
   (C5_invalid initState 0 "full_clean" false).2.2.1 (by decide),
   (C5_invalid initState 0 "full_clean" false).2.2.2.1 (by decide),
   ((C5_invalid initState 0 "full_clean" false).2.2.2.2 rfl).2.2⟩

lemma obstacle_preserved (a : Act) (s : RobotState)
    (h : s.obstacle_detected = false) :
    (applyAct a s).obstacle_detected = false := by
  cases a with
  | cmd c m now =>
    simp only [applyAct, send_robot_command]
    split_ifs <;> simp_all [rejEffect]
  | tick ob now =>
    simp only [applyAct, robot_simulation_tick]
    split_ifs <;> simp_all

lemma obstacle_run (acts : List Act) (s : RobotState)
    (h : s.obstacle_detected = false) :
    (run acts s).obstacle_detected = false := by
  induction acts generalizing s with
  | nil => exact h
  | cons a rest ih => exact ih _ (obstacle_preserved a s h)

/-- Claim C6 (amended): Resume with `is_cleaning` true and status
"paused" is accepted, sets status "mopping" and `pause_reason` none,
and leaves `obstacle_detected` unchanged — it performs no clearing;
`obstacle_detected` is false after a Resume from any reachable state
only because it is false in every state reachable from the initial
state by whole commands and ticks. -/
theorem C6_resume (s : RobotState) (now : Nat) (lf : Bool)
    (h1 : s.is_cleaning = true) (h2 : s.status = "paused") :
    (send_robot_command { command := "resume" } now lf s).state =
      { s with status := "mopping", pause_reason := none }
    ∧ (send_robot_command { command := "resume" } now lf s).result =
      some { success := true, message := "Cleaning resumed",
             robot_state := some { s with status := "mopping",
                                          pause_reason := none } }
    ∧ (send_robot_command { command := "resume" } now lf s).state.obstacle_detected
        = s.obstacle_detected
    ∧ (∀ acts, (run acts initState).obstacle_detected = false) := by
  refine ⟨?_, ?_, ?_, fun acts => obstacle_run acts initState rfl⟩ <;>
    simp [send_robot_command, h1, h2]

/-- Witness for C6: a Resume from a concrete user-paused state, and a
trace with a firing obstacle roll still ends with
`obstacle_detected = false`. -/
theorem C6_witness :
    (send_robot_command { command := "resume" } 7 false userPausedState).state =
      { userPausedState with status := "mopping", pause_reason := none }
    ∧ (run [Act.cmd "start" "full_clean" 0, Act.tick true 1]
        initState).obstacle_detected = false :=
  ⟨(C6_resume userPausedState 7 false rfl rfl).1,
   (C6_resume userPausedState 7 false rfl rfl).2.2.2
     [Act.cmd "start" "full_clean" 0, Act.tick true 1]⟩

/-- Counterexample to C6 as stated: at an obstacle-caused pause with
`obstacle_detected` still true (exposed by the running system during
the grace sleep), Resume is accepted but `obstacle_detected` stays
true — the resume branch never touches it. -/
theorem C6_counterexample :
    (send_robot_command { command := "resume" } 10 false
        obstaclePausedState).result =
      some { success := true, message := "Cleaning resumed",
             robot_state := some { obstaclePausedState with
               status := "mopping", pause_reason := none } }
    ∧ (send_robot_command { command := "resume" } 10 false
        obstaclePausedState).state.obstacle_detected = true := by
  decide

/-- Claim C7: Stop while cleaning writes exactly one interrupted log
record with `duration = now - start_time` and the progress at stop
time, resets the state to Idle (cleaning false, progress 0, times and
mode cleared), broadcasts one info event and returns success. -/
theorem C7_stop (s : RobotState) (now t : Nat)
    (h1 : s.is_cleaning = true) (h2 : s.start_time = some t) :
    send_robot_command { command := "stop" } now false s =
      { result := some { success := true, message := "Cleaning stopped",
                         robot_state := some (stopResetState s) },
        state := stopResetState s,
        events := [Event.info "Cleaning stopped by user" (stopResetState s)],
        records := [{ start_time := t, end_time := now, duration := now - t,
                      mode := s.current_mode, status := "interrupted",
                      progress := s.progress }],
        raised := false } := by
  simp [send_robot_command, stopResetState, h1, h2]

/-- Witness for C7: Stop at a concrete mid-session state. -/
theorem C7_witness :
    send_robot_command { command := "stop" } 10 false stopDemoState =
      { result := some { success := true, message := "Cleaning stopped",
                         robot_state := some (stopResetState stopDemoState) },
        state := stopResetState stopDemoState,
        events := [Event.info "Cleaning stopped by user"
                     (stopResetState stopDemoState)],
        records := [{ start_time := 3, end_time := 10, duration := 7,
                      mode := some "full_clean", status := "interrupted",
                      progress := 40 }],
        raised := false } := by
  have h := C7_stop stopDemoState 10 3 rfl rfl
  simpa using h

/-- Claim C8 (amended): a failing log insert does not roll back the
mutations already applied — completion keeps `is_cleaning := false`,
`status := "idle"`, `progress := 100`, and Stop keeps
`is_cleaning := false`, `status := "idle"` — but the exception
propagates: the Stop handler aborts before resetting
progress/start_time/current_mode and returns no result, and in the
simulation loop the exception escapes the task, so the tick loop does
not keep running.  No record is written and no event is emitted in
either case. -/
theorem C8_log_failure (s : RobotState) (ob : Bool) (now : Nat)
    (h1 : s.is_cleaning = true) :
    (s.status ≠ "paused" → ¬ s.progress < 100 →
      robot_simulation_tick ob true now s =
        { state := completedState s, events := [], records := [],
          crashed := true })
    ∧ send_robot_command { command := "stop" } now true s =
        { result := none,
          state := { s with is_cleaning := false, status := "idle" },
          events := [], records := [], raised := true } := by
  constructor
  · intro h2 h3
    simp [robot_simulation_tick, completedState, h1, h2, h3]
  · simp [send_robot_command, h1]

/-- Witness for C8: both failure paths at a concrete completing
state. -/
theorem C8_witness :
    robot_simulation_tick false true 20 preCompletionState8 =
      { state := completedState preCompletionState8, events := [],
        records := [], crashed := true }
    ∧ send_robot_command { command := "stop" } 20 true preCompletionState8 =
      { result := none,
        state := { preCompletionState8 with is_cleaning := false,
                                            status := "idle" },
        events := [], records := [], raised := true } :=
  ⟨(C8_log_failure preCompletionState8 false 20 rfl).1 (by decide) (by decide),
   (C8_log_failure preCompletionState8 false 20 rfl).2⟩

/-- Counterexample to C8 as stated: a failing insert on the completing
tick terminates the simulation loop (the exception escapes the task),
so the tick loop does not keep running afterwards. -/
theorem C8_counterexample :
    (robot_simulation_tick false true 20 preCompletionState8).crashed = true
    ∧ (robot_simulation_tick false true 20 preCompletionState8).state.is_cleaning = false
    ∧ (robot_simulation_tick false true 20 preCompletionState8).events = []
    ∧ (robot_simulation_tick false true 20 preCompletionState8).records = [] := by
  decide

namespace ConnectionManager

lemma sendLoop_eq (fails : Nat → Bool) (l : List Nat) :
    sendLoop fails l = (l.filter (fun c => !fails c), l.filter fails) := by
  induction l with
  | nil => rfl
  | cons c rest ih =>
    simp only [sendLoop, ih, List.filter]
    cases h : fails c <;> simp [h]

lemma foldl_disconnect_cons (c : Nat) (ds : List Nat) :
    ∀ l : List Nat, (∀ w ∈ ds, w ≠ c) →
    ds.foldl disconnect (c :: l) = c :: ds.foldl disconnect l := by
  induction ds with
  | nil => intro l _; rfl
  | cons d ds ih =>
    intro l h
    have hdc : d ≠ c := h d (List.mem_cons_self d ds)
    have step : disconnect (c :: l) d = c :: disconnect l d := by
      by_cases hm : d ∈ l
      · simp [disconnect, hm, hdc, hdc.symm, List.erase_cons, beq_iff_eq]
      · have : d ∉ c :: l := by simp [hdc, hm]
        simp [disconnect, hm, this]
    simp only [List.foldl_cons, step]
    exact ih (disconnect l d) fun w hw => h w (List.mem_cons_of_mem d hw)

lemma foldl_disconnect_filter (fails : Nat → Bool) (l : List Nat)
    (h : l.Nodup) :
    (l.filter fails).foldl disconnect l = l.filter (fun c => !fails c) := by
  induction l with
  | nil => rfl
  | cons c rest ih =>
    obtain ⟨hc, hrest⟩ := List.nodup_cons.mp h
    by_cases hf : fails c = true
    · have herase : disconnect (c :: rest) c = rest := by
        simp [disconnect, List.erase_cons, beq_iff_eq]
      rw [List.filter_cons_of_pos hf, List.foldl_cons, herase, ih hrest,
          List.filter_cons_of_neg (by simp [hf])]
    · have hmem : ∀ w ∈ rest.filter fails, w ≠ c := by
        intro w hw
        exact fun e => hc (e ▸ (List.mem_filter.mp hw).1)
      rw [List.filter_cons_of_neg hf,
          foldl_disconnect_cons c (rest.filter fails) rest hmem, ih hrest,
          List.filter_cons_of_pos (by simp_all)]

/-- Claim C9: broadcast attempts delivery to every current subscriber
(each one is either delivered to or collected as disconnected), every
non-failing subscriber receives the message, exactly the failing
subscribers are removed from the set, and the call itself returns
normally. -/
theorem C9_broadcast (conns : List Nat) (fails : Nat → Bool)
    (h : conns.Nodup) :
    (broadcast conns fails).1 = conns.filter (fun c => !fails c)
    ∧ (broadcast conns fails).2 = conns.filter (fun c => !fails c)
    ∧ (∀ c ∈ conns, c ∈ (sendLoop fails conns).1 ∨ c ∈ (sendLoop fails conns).2)
    ∧ (∀ c ∈ conns, fails c = false → c ∈ (broadcast conns fails).1)
    ∧ (∀ c ∈ conns, fails c = true → c ∉ (broadcast conns fails).2) := by
  have hs := sendLoop_eq fails conns
  have hf := foldl_disconnect_filter fails conns h
  refine ⟨?_, ?_, ?_, ?_, ?_⟩
  · simp [broadcast, hs]
  · simp [broadcast, hs, hf]
  · intro c hc
    rw [hs]
    by_cases hfc : fails c = true
    · exact Or.inr (List.mem_filter.mpr ⟨hc, hfc⟩)
    · exact Or.inl (List.mem_filter.mpr ⟨hc, by simp_all⟩)
  · intro c hc hfc
    simp [broadcast, hs, List.mem_filter, hc, hfc]
  · intro c hc hfc
    simp [broadcast, hs, hf, List.mem_filter, hfc]

/-- Witness for C9: three subscribers of which the second fails; the
other two receive the message and remain subscribed. -/
theorem C9_witness :
    (broadcast [1, 2, 3] (fun n => n == 2)).1 = [1, 3]
    ∧ (broadcast [1, 2, 3] (fun n => n == 2)).2 = [1, 3] := by
  have h := C9_broadcast [1, 2, 3] (fun n => n == 2) (by decide)
  exact ⟨by rw [h.1]; rfl, by rw [h.2.1]; rfl⟩

end ConnectionManager

/-- Claim C10: a command whose kind is not start/stop/pause/resume
falls through every branch: the handler returns null, changes nothing,
broadcasts nothing, writes nothing, raises nothing. -/
theorem C10_unknown_command (c : RobotCommand) (now : Nat) (lf : Bool)
    (s : RobotState) (h1 : c.command ≠ "start") (h2 : c.command ≠ "stop")
    (h3 : c.command ≠ "pause") (h4 : c.command ≠ "resume") :
    send_robot_command c now lf s =
      { result := none, state := s, events := [], records := [],
        raised := false } := by
  simp [send_robot_command, h1, h2, h3, h4]

/-- Witness for C10: a "status" command at the initial state. -/
theorem C10_witness :
    send_robot_command { command := "status" } 0 false initState =
      { result := none, state := initState, events := [], records := [],
        raised := false } :=
  C10_unknown_command { command := "status" } 0 false initState
    (by decide) (by decide) (by decide) (by decide)

end UvRobot
